import Mathlib

/-!
Verification of the anomaly-detection engine of the solar back end.

The engine lives in the source file exporting detectMechanicalAnomalies,
detectTemperatureAnomalies, detectShadingAnomalies, detectSensorErrors and
detectAllAnomalies.  Energy quantities are embedded as rationals, calendar
dates as naturals (only their identity and order of appearance matter to the
engine), and the mongo collections as explicit lists threaded through the
orchestrator.  The `totalEnergy` field of a daily aggregate may be absent
(mongo aggregation produces it, but the detectors defensively apply
`|| 0`), which we embed as an `Option`.  Human-readable description strings
are kept as the constant leading sentence of the message built by the
source; the numeric interpolation of the remainder is elided, and no
property below depends on description contents.
-/

namespace SolarAnomaly

/-- Daily aggregate record as produced by the aggregation pipeline:
a calendar date and the summed energy for that day.  The energy is
optional because every detector reads it as `r.totalEnergy || 0`. -/
structure DailyRecord where
  date : Nat
  totalEnergy : Option ℚ
  deriving DecidableEq, Repr

/-- Severity union type of the source, a closed three-value enumeration. -/
inductive Severity
  | CRITICAL
  | WARNING
  | INFO
  deriving DecidableEq, Repr

/-- Values stored in the open metadata mapping of a finding: numbers,
strings, or the nested lower/upper range object of the outlier pass. -/
inductive MetaVal
  | num (q : ℚ)
  | str (s : String)
  | range (lower upper : ℚ)
  deriving DecidableEq, Repr

/-- DetectionResult interface of the source: one candidate anomaly
emitted by a detector, before deduplication and persistence. -/
structure DetectionResult where
  anomalyType : String
  severity : Severity
  description : String
  affectedStartDate : Nat
  affectedEndDate : Nat
  metadata : List (String × MetaVal)
  deriving DecidableEq, Repr

/-- Solar unit profile: only the rated capacity (kW) is read by the engine. -/
structure SolarUnit where
  capacity : ℚ
  deriving DecidableEq, Repr

/-- Reading `r.totalEnergy || 0`: a missing energy behaves as zero. -/
def energyOf (r : DailyRecord) : ℚ :=
  r.totalEnergy.getD 0

/-- Insertion step for the embedding of the JavaScript array sort in
descending order, comparator `(a, b) => b - a`. -/
def insertDesc (x : ℚ) : List ℚ → List ℚ
  | [] => [x]
  | y :: ys => if y < x then x :: y :: ys else y :: insertDesc x ys

/-- Sort a list of rationals in descending order (embeds
`[...].sort((a, b) => b - a)`; only the multiset of values is ever used
by the engine, so the choice of sorting algorithm is immaterial). -/
def sortDesc : List ℚ → List ℚ
  | [] => []
  | x :: xs => insertDesc x (sortDesc xs)

/-- Insertion step for the ascending sort, comparator `(a, b) => a - b`. -/
def insertAsc (x : ℚ) : List ℚ → List ℚ
  | [] => [x]
  | y :: ys => if x < y then x :: y :: ys else y :: insertAsc x ys

/-- Sort a list of rationals in ascending order (embeds
`[...].sort((a, b) => a - b)`). -/
def sortAsc : List ℚ → List ℚ
  | [] => []
  | x :: xs => insertAsc x (sortAsc xs)

/-- Loop body of the mechanical detector: walk the consecutive pairs
`(prev, curr)` of the record list, emitting the complete-failure or the
significant-drop finding per the source conditions. -/
def mechPairs (avg : ℚ) : DailyRecord → List DailyRecord → List DetectionResult
  | _, [] => []
  | prev, curr :: rest =>
    (if energyOf curr = 0 ∧ energyOf prev > avg * 0.3 then
      [{ anomalyType := "MECHANICAL"
         severity := .CRITICAL
         description := "Complete production failure detected."
         affectedStartDate := curr.date
         affectedEndDate := curr.date
         metadata := [("previousEnergy", .num (energyOf prev)),
                      ("currentEnergy", .num (energyOf curr)),
                      ("dropPercentage", .num 100)] }]
     else if energyOf prev > 0 ∧ energyOf curr < energyOf prev * 0.3 ∧
              energyOf curr < avg * 0.5 then
      [{ anomalyType := "MECHANICAL"
         severity :=
           if (energyOf prev - energyOf curr) / energyOf prev * 100 > 80 then
             .CRITICAL
           else .WARNING
         description := "Significant production drop detected."
         affectedStartDate := curr.date
         affectedEndDate := curr.date
         metadata := [("previousEnergy", .num (energyOf prev)),
                      ("currentEnergy", .num (energyOf curr)),
                      ("dropPercentage",
                       .num ((energyOf prev - energyOf curr) / energyOf prev * 100))] }]
     else []) ++ mechPairs avg curr rest

/-- MECHANICAL detector: guard on fewer than 2 records, average of all
totals, then the pair walk of `mechPairs`. -/
def detectMechanicalAnomalies (records : List DailyRecord) : List DetectionResult :=
  if records.length < 2 then []
  else
    let avgProduction := (records.map energyOf).sum / (records.length : ℚ)
    match records with
    | [] => []
    | r :: rest => mechPairs avgProduction r rest

/-- TEMPERATURE detector: guard on fewer than 7 records, silent empty
result when the solar-unit lookup finds nothing, else compare the mean of
the last 7 entries against 60 percent of `capacity * 8`. -/
def detectTemperatureAnomalies (solarUnit : Option SolarUnit)
    (records : List DailyRecord) : List DetectionResult :=
  if records.length < 7 then []
  else
    match solarUnit with
    | none => []
    | some u =>
      let expectedDailyEnergy := u.capacity * 8
      let recentRecords := records.drop (records.length - 7)
      let avgRecentProduction :=
        (recentRecords.map energyOf).sum / (recentRecords.length : ℚ)
      let expectedProduction := expectedDailyEnergy * 0.6
      if avgRecentProduction < expectedProduction ∧ avgRecentProduction > 0 then
        let efficiencyPercent := avgRecentProduction / expectedDailyEnergy * 100
        [{ anomalyType := "TEMPERATURE"
           severity := if efficiencyPercent < 40 then .WARNING else .INFO
           description := "Consistent underperformance detected."
           affectedStartDate := (recentRecords.map DailyRecord.date).headD 0
           affectedEndDate := (recentRecords.map DailyRecord.date).getLastD 0
           metadata := [("averageProduction", .num avgRecentProduction),
                        ("expectedProduction", .num expectedDailyEnergy),
                        ("efficiencyPercent", .num efficiencyPercent),
                        ("daysAnalyzed", .num (recentRecords.length : ℚ))] }]
      else []

/-- SHADING detector: guard on fewer than 5 records, compare the overall
average against the average of the top 3 days, and emit one finding when
at least 3 low-production days exist. -/
def detectShadingAnomalies (records : List DailyRecord) : List DetectionResult :=
  if records.length < 5 then []
  else
    let sortedByEnergy := sortDesc (records.map energyOf)
    let top3Avg := (sortedByEnergy.take 3).sum / 3
    let overallAvg := sortedByEnergy.sum / (sortedByEnergy.length : ℚ)
    if top3Avg > 0 ∧ overallAvg < top3Avg * 0.7 then
      let reductionPercent := (top3Avg - overallAvg) / top3Avg * 100
      let lowProductionDays :=
        records.filter (fun r => energyOf r < top3Avg * 0.75)
      if lowProductionDays.length ≥ 3 then
        [{ anomalyType := "SHADING"
           severity := if reductionPercent > 40 then .WARNING else .INFO
           description := "Possible shading or obstruction detected."
           affectedStartDate := (lowProductionDays.map DailyRecord.date).headD 0
           affectedEndDate := (lowProductionDays.map DailyRecord.date).getLastD 0
           metadata := [("peakProduction", .num top3Avg),
                        ("averageProduction", .num overallAvg),
                        ("reductionPercent", .num reductionPercent),
                        ("affectedDays", .num (lowProductionDays.length : ℚ))] }]
      else []
    else []

/-- SENSOR_ERROR detector: guard on fewer than 3 records, silent empty
result when the unit lookup finds nothing, then two passes: the physical
bounds check and the IQR statistical-outlier check, concatenated. -/
def detectSensorErrors (solarUnit : Option SolarUnit)
    (records : List DailyRecord) : List DetectionResult :=
  if records.length < 3 then []
  else
    match solarUnit with
    | none => []
    | some u =>
      let maxPossibleDailyEnergy := u.capacity * 10
      let boundsFindings := records.flatMap fun r =>
        if energyOf r < 0 then
          [{ anomalyType := "SENSOR_ERROR"
             severity := .CRITICAL
             description := "Invalid sensor reading detected."
             affectedStartDate := r.date
             affectedEndDate := r.date
             metadata := [("invalidValue", .num (energyOf r)),
                          ("errorType", .str "NEGATIVE_VALUE")] }]
        else if energyOf r > maxPossibleDailyEnergy * 1.2 then
          [{ anomalyType := "SENSOR_ERROR"
             severity := .CRITICAL
             description := "Impossible sensor reading detected."
             affectedStartDate := r.date
             affectedEndDate := r.date
             metadata := [("invalidValue", .num (energyOf r)),
                          ("theoreticalMax", .num maxPossibleDailyEnergy),
                          ("errorType", .str "EXCEEDS_MAXIMUM")] }]
        else []
      let energies := sortAsc (records.map energyOf)
      let q1 := energies.getD (energies.length / 4) 0
      let q3 := energies.getD (energies.length * 3 / 4) 0
      let iqr := q3 - q1
      let lowerBound := q1 - 1.5 * iqr
      let upperBound := q3 + 1.5 * iqr
      let outlierFindings := records.flatMap fun r =>
        if energyOf r < lowerBound ∨ energyOf r > upperBound then
          [{ anomalyType := "SENSOR_ERROR"
             severity := .WARNING
             description := "Outlier reading detected."
             affectedStartDate := r.date
             affectedEndDate := r.date
             metadata := [("outlierValue", .num (energyOf r)),
                          ("expectedRange", .range lowerBound upperBound),
                          ("errorType", .str "STATISTICAL_OUTLIER")] }]
        else []
      boundsFindings ++ outlierFindings

/-- Persisted AnomalyRecord of the mongo collection.  The schema gives
`resolved` the default `false`; `detectionTimestamp` and `resolvedAt` are
wall-clock fields never read by the engine and are omitted. -/
structure Anomaly where
  solarUnitId : String
  anomalyType : String
  severity : Severity
  description : String
  affectedStartDate : Nat
  affectedEndDate : Nat
  metadata : List (String × MetaVal)
  resolved : Bool
  deriving DecidableEq, Repr

/-- Anomaly.create of the orchestrator: spread the finding fields onto a
new record for the given unit; `resolved` takes its schema default. -/
def mkAnomaly (solarUnitId : String) (f : DetectionResult) : Anomaly :=
  { solarUnitId := solarUnitId
    anomalyType := f.anomalyType
    severity := f.severity
    description := f.description
    affectedStartDate := f.affectedStartDate
    affectedEndDate := f.affectedEndDate
    metadata := f.metadata
    resolved := false }

/-- Anomaly.findOne on the dedup key: first stored record matching the
unit, the anomaly type, the affected start date, and `resolved: false`. -/
def findUnresolved (db : List Anomaly) (solarUnitId anomalyType : String)
    (affectedStartDate : Nat) : Option Anomaly :=
  match db with
  | [] => none
  | a :: rest =>
    if a.solarUnitId = solarUnitId ∧ a.anomalyType = anomalyType ∧
       a.affectedStartDate = affectedStartDate ∧ a.resolved = false then
      some a
    else findUnresolved rest solarUnitId anomalyType affectedStartDate

/-- Console output of the orchestrator, kept as structured events: the
no-records early return, the processing banner, the completion line with
the created/skipped/detected counts, and the catch-all error line. -/
inductive LogEvent
  | noRecords (solarUnitId : String)
  | processing (recordCount : Nat) (solarUnitId : String)
  | complete (created skipped detected : Nat)
  | runError (solarUnitId : String)
  deriving DecidableEq, Repr

/-- Observable outcome of one orchestrator run: the anomaly collection
after the run, the log lines, and the value the returned promise resolves
with — `Unit`, since the source function is typed `Promise<void>`. -/
structure RunState where
  anomalies : List Anomaly
  log : List LogEvent
  returned : Unit
  deriving DecidableEq, Repr

/-- State of the persistence loop when it finishes or when a repository
operation throws: the collection, both counters, and whether an exception
aborted the loop (to be caught by the run-level try/catch). -/
structure PersistOutcome where
  db : List Anomaly
  created : Nat
  skipped : Nat
  aborted : Bool
  deriving DecidableEq, Repr

/-- Dedup-then-create loop over the combined findings.  `failFind i`
(resp. `failCreate i`) injects a thrown exception into the findOne (resp.
create) call of the i-th finding; the loop body sits inside the run-level
try block, so a throw ends the loop at once. -/
def persistLoop (solarUnitId : String) (failFind failCreate : Nat → Bool) :
    Nat → List Anomaly → Nat → Nat → List DetectionResult → PersistOutcome
  | _, db, created, skipped, [] => ⟨db, created, skipped, false⟩
  | i, db, created, skipped, f :: rest =>
    if failFind i then ⟨db, created, skipped, true⟩
    else
      match findUnresolved db solarUnitId f.anomalyType f.affectedStartDate with
      | some _ => persistLoop solarUnitId failFind failCreate (i + 1) db
          created (skipped + 1) rest
      | none =>
        if failCreate i then ⟨db, created, skipped, true⟩
        else persistLoop solarUnitId failFind failCreate (i + 1)
          (db ++ [mkAnomaly solarUnitId f]) (created + 1) skipped rest

/-- Combined findings of one run: the four detectors are launched with
Promise.all over the same records and the results concatenated in the
fixed order mechanical, temperature, shading, sensor.  The unit-profile
lookup done inside the temperature and sensor detectors is passed as its
result value. -/
def allFindings (solarUnit : Option SolarUnit)
    (records : List DailyRecord) : List DetectionResult :=
  detectMechanicalAnomalies records ++
  detectTemperatureAnomalies solarUnit records ++
  detectShadingAnomalies records ++
  detectSensorErrors solarUnit records

/-- Failure schedule under which no repository operation throws. -/
def noFail : Nat → Bool := fun _ => false

/-- detectAllAnomalies orchestrator.  `records` is the result of the
aggregation query (daily totals ascending by date), `solarUnit` the result
of the profile lookup, `db` the anomaly collection before the run.  The
entire body runs inside one try/catch whose handler only logs, so an
aborted persistence loop yields the error log line, no completion counts,
and a normally resolved promise. -/
def detectAllAnomalies (failFind failCreate : Nat → Bool)
    (solarUnit : Option SolarUnit) (solarUnitId : String)
    (records : List DailyRecord) (db : List Anomaly) : RunState :=
  if records.length = 0 then
    ⟨db, [LogEvent.noRecords solarUnitId], ()⟩
  else
    let out := persistLoop solarUnitId failFind failCreate 0 db 0 0
      (allFindings solarUnit records)
    if out.aborted then
      ⟨out.db, [LogEvent.processing records.length solarUnitId,
                LogEvent.runError solarUnitId], ()⟩
    else
      ⟨out.db, [LogEvent.processing records.length solarUnitId,
                LogEvent.complete out.created out.skipped
                  (allFindings solarUnit records).length], ()⟩

/-! ## Helper lemmas -/

/-- Membership version of the mechanical pair walk: any consecutive pair
satisfying the complete-collapse condition contributes its CRITICAL
finding to the output of the walk. -/
theorem mem_mechPairs_collapse (avg : ℚ) (prev curr : DailyRecord) :
    ∀ (first : DailyRecord) (rest : List DailyRecord),
      (prev, curr) ∈ (first :: rest).zip rest →
      energyOf curr = 0 → energyOf prev > avg * 0.3 →
      ({ anomalyType := "MECHANICAL"
         severity := .CRITICAL
         description := "Complete production failure detected."
         affectedStartDate := curr.date
         affectedEndDate := curr.date
         metadata := [("previousEnergy", .num (energyOf prev)),
                      ("currentEnergy", .num (energyOf curr)),
                      ("dropPercentage", .num 100)] } : DetectionResult) ∈
        mechPairs avg first rest := by
  intro first rest
  induction rest generalizing first with
  | nil => intro h; simp at h
  | cons curr0 rest ih =>
    intro hpair hc hp
    rw [List.zip_cons_cons, List.mem_cons] at hpair
    rw [mechPairs, List.mem_append]
    rcases hpair with heq | htail
    · obtain ⟨h1, h2⟩ := Prod.mk.injEq .. ▸ heq
      subst h1; subst h2
      left
      rw [if_pos ⟨hc, hp⟩]
      simp
    · right
      exact ih curr0 htail hc hp

/-! ## Claims -/

/-- C5: for every aggregate sequence shorter than a detector minimum
history requirement (2 days mechanical, 7 temperature, 5 shading, 3
sensor error), that detector returns the empty list of findings. -/
theorem min_history_guards (solarUnit : Option SolarUnit)
    (records : List DailyRecord) :
    (records.length < 2 → detectMechanicalAnomalies records = []) ∧
    (records.length < 7 → detectTemperatureAnomalies solarUnit records = []) ∧
    (records.length < 5 → detectShadingAnomalies records = []) ∧
    (records.length < 3 → detectSensorErrors solarUnit records = []) := by
  refine ⟨fun h => ?_, fun h => ?_, fun h => ?_, fun h => ?_⟩ <;>
    simp [detectMechanicalAnomalies, detectTemperatureAnomalies,
          detectShadingAnomalies, detectSensorErrors, h]

/-- Witness for C5 at the one-day series. -/
theorem min_history_guards_witness :
    ([(⟨0, some 10⟩ : DailyRecord)].length < 2 ∧
      detectMechanicalAnomalies [⟨0, some 10⟩] = []) ∧
    ([(⟨0, some 10⟩ : DailyRecord)].length < 7 ∧
      detectTemperatureAnomalies none [⟨0, some 10⟩] = []) ∧
    ([(⟨0, some 10⟩ : DailyRecord)].length < 5 ∧
      detectShadingAnomalies [⟨0, some 10⟩] = []) ∧
    ([(⟨0, some 10⟩ : DailyRecord)].length < 3 ∧
      detectSensorErrors none [⟨0, some 10⟩] = []) := by
  obtain ⟨h1, h2, h3, h4⟩ := min_history_guards none [⟨0, some 10⟩]
  exact ⟨⟨by simp, h1 (by simp)⟩, ⟨by simp, h2 (by simp)⟩,
         ⟨by simp, h3 (by simp)⟩, ⟨by simp, h4 (by simp)⟩⟩

/-- C6: in a series of length at least 2, every consecutive pair with a
zero current day and a previous day above 0.3 times the mean yields a
CRITICAL single-day MECHANICAL finding with dropPercentage 100; and the
series 10,10,10,10,0 yields exactly that one finding. -/
theorem mechanical_complete_collapse
    (records : List DailyRecord) (h2 : 2 ≤ records.length)
    (prev curr : DailyRecord)
    (hpair : (prev, curr) ∈ records.zip records.tail)
    (hc : energyOf curr = 0)
    (hp : energyOf prev > (records.map energyOf).sum / (records.length : ℚ) * 0.3) :
    ({ anomalyType := "MECHANICAL"
       severity := .CRITICAL
       description := "Complete production failure detected."
       affectedStartDate := curr.date
       affectedEndDate := curr.date
       metadata := [("previousEnergy", .num (energyOf prev)),
                    ("currentEnergy", .num (energyOf curr)),
                    ("dropPercentage", .num 100)] } : DetectionResult) ∈
      detectMechanicalAnomalies records ∧
    detectMechanicalAnomalies
        [⟨0, some 10⟩, ⟨1, some 10⟩, ⟨2, some 10⟩, ⟨3, some 10⟩, ⟨4, some 0⟩] =
      [{ anomalyType := "MECHANICAL"
         severity := .CRITICAL
         description := "Complete production failure detected."
         affectedStartDate := 4
         affectedEndDate := 4
         metadata := [("previousEnergy", .num 10),
                      ("currentEnergy", .num 0),
                      ("dropPercentage", .num 100)] }] := by
  constructor
  · match records, h2 with
    | r :: r2 :: rest, _ =>
      rw [detectMechanicalAnomalies]
      rw [if_neg (by simp)]
      exact mem_mechPairs_collapse _ prev curr r (r2 :: rest) hpair hc hp
  · norm_num [detectMechanicalAnomalies, mechPairs, energyOf]

/-- Witness for C6 at the series 10,10,10,10,0 and its final pair. -/
theorem mechanical_complete_collapse_witness :
    ({ anomalyType := "MECHANICAL"
       severity := .CRITICAL
       description := "Complete production failure detected."
       affectedStartDate := 4
       affectedEndDate := 4
       metadata := [("previousEnergy", .num 10),
                    ("currentEnergy", .num 0),
                    ("dropPercentage", .num 100)] } : DetectionResult) ∈
      detectMechanicalAnomalies
        [⟨0, some 10⟩, ⟨1, some 10⟩, ⟨2, some 10⟩, ⟨3, some 10⟩, ⟨4, some 0⟩] := by
  have h := mechanical_complete_collapse
    [⟨0, some 10⟩, ⟨1, some 10⟩, ⟨2, some 10⟩, ⟨3, some 10⟩, ⟨4, some 0⟩]
    (by simp) ⟨3, some 10⟩ ⟨4, some 0⟩ (by simp) (by simp [energyOf])
    (by norm_num [energyOf])
  exact h.1

/-- C3 counterexample: with an unknown unit profile but existing daily
records, the run does not abort — it completes normally and creates one
MECHANICAL anomaly. -/
theorem unknown_unit_creates_anomalies_cex :
    (detectAllAnomalies noFail noFail none "u1"
        [⟨0, some 10⟩, ⟨1, some 10⟩, ⟨2, some 10⟩, ⟨3, some 10⟩, ⟨4, some 0⟩]
        []).anomalies.length = 1 ∧
    (detectAllAnomalies noFail noFail none "u1"
        [⟨0, some 10⟩, ⟨1, some 10⟩, ⟨2, some 10⟩, ⟨3, some 10⟩, ⟨4, some 0⟩]
        []).log =
      [LogEvent.processing 5 "u1", LogEvent.complete 1 0 1] := by
  constructor <;>
    norm_num [detectAllAnomalies, allFindings, detectMechanicalAnomalies,
      detectTemperatureAnomalies, detectShadingAnomalies, detectSensorErrors,
      mechPairs, energyOf, sortDesc, insertDesc, persistLoop, findUnresolved,
      mkAnomaly, noFail]

/-- C3 amended: an unknown unit profile silently empties only the
temperature and sensor-error detectors; the combined findings of a run
are then exactly the mechanical and shading findings, which the run still
persists (no abort). -/
theorem unknown_unit_partial_detectors (records : List DailyRecord) :
    detectTemperatureAnomalies none records = [] ∧
    detectSensorErrors none records = [] ∧
    allFindings none records =
      detectMechanicalAnomalies records ++ detectShadingAnomalies records := by
  have ht : detectTemperatureAnomalies none records = [] := by
    rw [detectTemperatureAnomalies]; split <;> rfl
  have hs : detectSensorErrors none records = [] := by
    rw [detectSensorErrors]; split <;> rfl
  refine ⟨ht, hs, ?_⟩
  rw [allFindings, ht, hs]
  simp

/-- C4 counterexample: two runs whose created/detected counts differ (one
creates one anomaly, the other zero) resolve with the same caller-visible
value — the counts are not part of the result value. -/
theorem counts_not_in_return_value_cex :
    (detectAllAnomalies noFail noFail none "u2"
        [⟨0, some 10⟩, ⟨1, some 10⟩, ⟨2, some 10⟩, ⟨3, some 10⟩, ⟨4, some 0⟩]
        []).returned =
      (detectAllAnomalies noFail noFail none "u2" [⟨0, some 10⟩] []).returned ∧
    (detectAllAnomalies noFail noFail none "u2"
        [⟨0, some 10⟩, ⟨1, some 10⟩, ⟨2, some 10⟩, ⟨3, some 10⟩, ⟨4, some 0⟩]
        []).log =
      [LogEvent.processing 5 "u2", LogEvent.complete 1 0 1] ∧
    (detectAllAnomalies noFail noFail none "u2" [⟨0, some 10⟩] []).log =
      [LogEvent.processing 1 "u2", LogEvent.complete 0 0 0] := by
  refine ⟨rfl, ?_, ?_⟩ <;>
    norm_num [detectAllAnomalies, allFindings, detectMechanicalAnomalies,
      detectTemperatureAnomalies, detectShadingAnomalies, detectSensorErrors,
      mechPairs, energyOf, sortDesc, insertDesc, persistLoop, findUnresolved,
      mkAnomaly, noFail]

/-- C4 amended: the orchestrator resolves with no value (unit); when the
series is nonempty and no repository operation throws, the
detected/created/skipped counts appear only in the completion log
event. -/
theorem counts_reported_in_log_only (failFind failCreate : Nat → Bool)
    (solarUnit : Option SolarUnit) (solarUnitId : String)
    (records : List DailyRecord) (db : List Anomaly)
    (hne : records ≠ [])
    (hok : (persistLoop solarUnitId failFind failCreate 0 db 0 0
        (allFindings solarUnit records)).aborted = false) :
    (detectAllAnomalies failFind failCreate solarUnit solarUnitId records db).returned
      = () ∧
    (detectAllAnomalies failFind failCreate solarUnit solarUnitId records db).log =
      [LogEvent.processing records.length solarUnitId,
       LogEvent.complete
         (persistLoop solarUnitId failFind failCreate 0 db 0 0
           (allFindings solarUnit records)).created
         (persistLoop solarUnitId failFind failCreate 0 db 0 0
           (allFindings solarUnit records)).skipped
         (allFindings solarUnit records).length] := by
  rw [detectAllAnomalies]
  rw [if_neg (by simpa using hne)]
  simp only [hok]
  simp

/-- Witness for C4 amended at a concrete five-day series. -/
theorem counts_reported_in_log_only_witness :
    ([(⟨0, some 10⟩ : DailyRecord), ⟨1, some 10⟩, ⟨2, some 10⟩, ⟨3, some 10⟩,
        ⟨4, some 0⟩] ≠ []) ∧
    (detectAllAnomalies noFail noFail none "u3"
        [⟨0, some 10⟩, ⟨1, some 10⟩, ⟨2, some 10⟩, ⟨3, some 10⟩, ⟨4, some 0⟩]
        []).returned = () ∧
    (detectAllAnomalies noFail noFail none "u3"
        [⟨0, some 10⟩, ⟨1, some 10⟩, ⟨2, some 10⟩, ⟨3, some 10⟩, ⟨4, some 0⟩]
        []).log =
      [LogEvent.processing 5 "u3",
       LogEvent.complete
         (persistLoop "u3" noFail noFail 0 [] 0 0
           (allFindings none
             [⟨0, some 10⟩, ⟨1, some 10⟩, ⟨2, some 10⟩, ⟨3, some 10⟩,
              ⟨4, some 0⟩])).created
         (persistLoop "u3" noFail noFail 0 [] 0 0
           (allFindings none
             [⟨0, some 10⟩, ⟨1, some 10⟩, ⟨2, some 10⟩, ⟨3, some 10⟩,
              ⟨4, some 0⟩])).skipped
         (allFindings none
           [⟨0, some 10⟩, ⟨1, some 10⟩, ⟨2, some 10⟩, ⟨3, some 10⟩,
            ⟨4, some 0⟩]).length] := by
  refine ⟨by simp, ?_⟩
  have h := counts_reported_in_log_only noFail noFail none "u3"
    [⟨0, some 10⟩, ⟨1, some 10⟩, ⟨2, some 10⟩, ⟨3, some 10⟩, ⟨4, some 0⟩] []
    (by simp)
    (by norm_num [persistLoop, allFindings, detectMechanicalAnomalies,
      detectTemperatureAnomalies, detectShadingAnomalies, detectSensorErrors,
      mechPairs, energyOf, sortDesc, insertDesc, findUnresolved, mkAnomaly,
      noFail])
  simpa using h

/-- Inserting into the descending sort adds one element to the length. -/
theorem length_insertDesc (x : ℚ) (l : List ℚ) :
    (insertDesc x l).length = l.length + 1 := by
  induction l with
  | nil => rfl
  | cons y ys ih => rw [insertDesc]; split <;> simp [ih]

/-- The descending sort preserves the length. -/
theorem length_sortDesc (l : List ℚ) : (sortDesc l).length = l.length := by
  induction l with
  | nil => rfl
  | cons x xs ih => rw [sortDesc, length_insertDesc, ih]; rfl

/-- Inserting into the descending sort adds the element to the sum. -/
theorem sum_insertDesc (x : ℚ) (l : List ℚ) :
    (insertDesc x l).sum = x + l.sum := by
  induction l with
  | nil => simp [insertDesc]
  | cons y ys ih =>
    rw [insertDesc]; split
    · simp
    · rw [List.sum_cons, List.sum_cons, ih]; ring

/-- The descending sort preserves the sum. -/
theorem sum_sortDesc (l : List ℚ) : (sortDesc l).sum = l.sum := by
  induction l with
  | nil => rfl
  | cons x xs ih => rw [sortDesc, sum_insertDesc, ih]; rfl

/-- C8: for a series of at least 5 days the shading detector emits
exactly one finding when the top-3 average is positive, the overall
average is below 0.7 of it, and at least 3 low-production days exist —
and nothing otherwise; the finding spans the first through last
low-production day and is WARNING exactly when the reduction exceeds 40
percent. -/
theorem shading_emission_condition (records : List DailyRecord)
    (h5 : 5 ≤ records.length) :
    let top3Avg := (((sortDesc (records.map energyOf)).take 3).sum / 3 : ℚ)
    let overallAvg := ((records.map energyOf).sum / (records.length : ℚ) : ℚ)
    let lowProductionDays := records.filter (fun r => energyOf r < top3Avg * 0.75)
    let reductionPercent := (top3Avg - overallAvg) / top3Avg * 100
    detectShadingAnomalies records =
      (if 0 < top3Avg ∧ overallAvg < top3Avg * 0.7 ∧ 3 ≤ lowProductionDays.length then
        [{ anomalyType := "SHADING"
           severity := if 40 < reductionPercent then .WARNING else .INFO
           description := "Possible shading or obstruction detected."
           affectedStartDate := (lowProductionDays.map DailyRecord.date).headD 0
           affectedEndDate := (lowProductionDays.map DailyRecord.date).getLastD 0
           metadata := [("peakProduction", .num top3Avg),
                        ("averageProduction", .num overallAvg),
                        ("reductionPercent", .num reductionPercent),
                        ("affectedDays", .num (lowProductionDays.length : ℚ))] }]
      else []) := by
  rw [detectShadingAnomalies, if_neg (by omega)]
  simp only [length_sortDesc, List.length_map, sum_sortDesc, gt_iff_lt, ge_iff_le]
  split_ifs <;> first | rfl | tauto

/-- Witness for C8 at the six-day series 20,20,20,4,4,4. -/
theorem shading_emission_condition_witness :
    (5 ≤ ([(⟨0, some 20⟩ : DailyRecord), ⟨1, some 20⟩, ⟨2, some 20⟩,
            ⟨3, some 4⟩, ⟨4, some 4⟩, ⟨5, some 4⟩] : List DailyRecord).length) ∧
    detectShadingAnomalies
        [⟨0, some 20⟩, ⟨1, some 20⟩, ⟨2, some 20⟩, ⟨3, some 4⟩, ⟨4, some 4⟩,
         ⟨5, some 4⟩] =
      [{ anomalyType := "SHADING"
         severity := .INFO
         description := "Possible shading or obstruction detected."
         affectedStartDate := 3
         affectedEndDate := 5
         metadata := [("peakProduction", .num 20),
                      ("averageProduction", .num 12),
                      ("reductionPercent", .num 40),
                      ("affectedDays", .num 3)] }] := by
  refine ⟨by simp, ?_⟩
  have h := shading_emission_condition
    [⟨0, some 20⟩, ⟨1, some 20⟩, ⟨2, some 20⟩, ⟨3, some 4⟩, ⟨4, some 4⟩,
     ⟨5, some 4⟩] (by simp)
  rw [h]
  norm_num [energyOf, sortDesc, insertDesc]

/-- C9: for a series of at least 7 days and a known profile, the
temperature detector emits exactly one finding when the mean of the last
7 entries is strictly between 0 and 60 percent of capacity times 8 — and
nothing otherwise; the finding spans the 7-day window, is WARNING exactly
when the efficiency percentage is below 40, and carries the four metadata
entries. -/
theorem temperature_emission_condition (u : SolarUnit)
    (records : List DailyRecord) (h7 : 7 ≤ records.length) :
    let expectedDailyEnergy := u.capacity * 8
    let recentRecords := records.drop (records.length - 7)
    let avgRecent := (((recentRecords.map energyOf).sum / 7 : ℚ))
    let efficiencyPercent := avgRecent / expectedDailyEnergy * 100
    detectTemperatureAnomalies (some u) records =
      (if 0 < avgRecent ∧ avgRecent < expectedDailyEnergy * 0.6 then
        [{ anomalyType := "TEMPERATURE"
           severity := if efficiencyPercent < 40 then .WARNING else .INFO
           description := "Consistent underperformance detected."
           affectedStartDate := (recentRecords.map DailyRecord.date).headD 0
           affectedEndDate := (recentRecords.map DailyRecord.date).getLastD 0
           metadata := [("averageProduction", .num avgRecent),
                        ("expectedProduction", .num expectedDailyEnergy),
                        ("efficiencyPercent", .num efficiencyPercent),
                        ("daysAnalyzed", .num 7)] }]
      else []) := by
  have hlen : (records.drop (records.length - 7)).length = 7 := by
    rw [List.length_drop]; omega
  rw [detectTemperatureAnomalies, if_neg (by omega)]
  simp only [hlen, Nat.cast_ofNat, gt_iff_lt]
  split_ifs <;> first | rfl | tauto

/-- Witness for C9 at a seven-day constant series with capacity 5. -/
theorem temperature_emission_condition_witness :
    (7 ≤ ([(⟨0, some 10⟩ : DailyRecord), ⟨1, some 10⟩, ⟨2, some 10⟩,
            ⟨3, some 10⟩, ⟨4, some 10⟩, ⟨5, some 10⟩, ⟨6, some 10⟩] :
            List DailyRecord).length) ∧
    detectTemperatureAnomalies (some ⟨5⟩)
        [⟨0, some 10⟩, ⟨1, some 10⟩, ⟨2, some 10⟩, ⟨3, some 10⟩, ⟨4, some 10⟩,
         ⟨5, some 10⟩, ⟨6, some 10⟩] =
      [{ anomalyType := "TEMPERATURE"
         severity := .WARNING
         description := "Consistent underperformance detected."
         affectedStartDate := 0
         affectedEndDate := 6
         metadata := [("averageProduction", .num 10),
                      ("expectedProduction", .num 40),
                      ("efficiencyPercent", .num 25),
                      ("daysAnalyzed", .num 7)] }] := by
  refine ⟨by simp, ?_⟩
  have h := temperature_emission_condition ⟨5⟩
    [⟨0, some 10⟩, ⟨1, some 10⟩, ⟨2, some 10⟩, ⟨3, some 10⟩, ⟨4, some 10⟩,
     ⟨5, some 10⟩, ⟨6, some 10⟩] (by simp)
  rw [h]
  norm_num [energyOf]

/-- Filtering a guarded singleton flatMap keeps exactly the guarded
elements, mapped. -/
theorem flatMap_guard_eq_filter_map {α β : Type} (c : α → Prop) [DecidablePred c]
    (m : α → β) (l : List α) :
    (l.flatMap fun a => if c a then [m a] else []) =
      (l.filter fun a => decide (c a)).map m := by
  induction l with
  | nil => rfl
  | cons x xs ih =>
    by_cases h : c x <;> simp [List.flatMap_cons, List.filter_cons, h, ih]

/-- A filter that rejects every element of every block of a flatMap
returns the empty list. -/
theorem filter_flatMap_eq_nil {α β : Type} (p : β → Bool) (g : α → List β)
    (l : List α) (h : ∀ a : α, (g a).filter p = []) :
    (l.flatMap g).filter p = [] := by
  induction l with
  | nil => rfl
  | cons x xs ih => rw [List.flatMap_cons, List.filter_append, h, ih]; rfl

/-- C7: on a series of at least 3 days with a known profile, the findings
of the sensor-error detector carrying errorType STATISTICAL_OUTLIER are
exactly one WARNING finding per day whose value falls outside the IQR
bounds computed from the ascending sorted totals, with the value and both
bounds in the metadata; and the series 10,11,9,10,12,10,50 flags exactly
the value 50. -/
theorem sensor_iqr_outlier_pass (u : SolarUnit) (records : List DailyRecord)
    (h3 : 3 ≤ records.length) :
    (let energies := sortAsc (records.map energyOf)
     let q1 := energies.getD (energies.length / 4) 0
     let q3 := energies.getD (energies.length * 3 / 4) 0
     let iqr := q3 - q1
     let lowerBound := q1 - 1.5 * iqr
     let upperBound := q3 + 1.5 * iqr
     (detectSensorErrors (some u) records).filter
        (fun f => decide (("errorType", MetaVal.str "STATISTICAL_OUTLIER") ∈ f.metadata)) =
      (records.filter
          (fun r => decide (energyOf r < lowerBound ∨ energyOf r > upperBound))).map
        (fun r =>
          { anomalyType := "SENSOR_ERROR"
            severity := .WARNING
            description := "Outlier reading detected."
            affectedStartDate := r.date
            affectedEndDate := r.date
            metadata := [("outlierValue", .num (energyOf r)),
                         ("expectedRange", .range lowerBound upperBound),
                         ("errorType", .str "STATISTICAL_OUTLIER")] })) ∧
    detectSensorErrors (some ⟨5⟩)
        [⟨0, some 10⟩, ⟨1, some 11⟩, ⟨2, some 9⟩, ⟨3, some 10⟩, ⟨4, some 12⟩,
         ⟨5, some 10⟩, ⟨6, some 50⟩] =
      [{ anomalyType := "SENSOR_ERROR"
         severity := .WARNING
         description := "Outlier reading detected."
         affectedStartDate := 6
         affectedEndDate := 6
         metadata := [("outlierValue", .num 50),
                      ("expectedRange", .range 7 15),
                      ("errorType", .str "STATISTICAL_OUTLIER")] }] := by
  constructor
  · rw [detectSensorErrors, if_neg (by omega)]
    simp only []
    rw [List.filter_append]
    rw [filter_flatMap_eq_nil _ _ _ (by
      intro r
      by_cases h1 : energyOf r < 0
      · simp [h1]
      · by_cases h2 : energyOf r > u.capacity * 10 * 1.2 <;> simp [h1, h2])]
    rw [List.nil_append]
    rw [flatMap_guard_eq_filter_map]
    rw [List.filter_eq_self.mpr (by
      intro f hf
      rw [List.mem_map] at hf
      obtain ⟨r, _, hr⟩ := hf
      subst hr
      simp)]

  · norm_num [detectSensorErrors, energyOf, sortAsc, insertAsc]

/-- Witness for C7 at the seven-day example series with capacity 5. -/
theorem sensor_iqr_outlier_pass_witness :
    (3 ≤ ([(⟨0, some 10⟩ : DailyRecord), ⟨1, some 11⟩, ⟨2, some 9⟩,
            ⟨3, some 10⟩, ⟨4, some 12⟩, ⟨5, some 10⟩, ⟨6, some 50⟩] :
            List DailyRecord).length) ∧
    (let records : List DailyRecord :=
       [⟨0, some 10⟩, ⟨1, some 11⟩, ⟨2, some 9⟩, ⟨3, some 10⟩, ⟨4, some 12⟩,
        ⟨5, some 10⟩, ⟨6, some 50⟩]
     let energies := sortAsc (records.map energyOf)
     let q1 := energies.getD (energies.length / 4) 0
     let q3 := energies.getD (energies.length * 3 / 4) 0
     let iqr := q3 - q1
     let lowerBound := q1 - 1.5 * iqr
     let upperBound := q3 + 1.5 * iqr
     (detectSensorErrors (some ⟨5⟩) records).filter
        (fun f => decide (("errorType", MetaVal.str "STATISTICAL_OUTLIER") ∈ f.metadata)) =
      (records.filter
          (fun r => decide (energyOf r < lowerBound ∨ energyOf r > upperBound))).map
        (fun r =>
          { anomalyType := "SENSOR_ERROR"
            severity := .WARNING
            description := "Outlier reading detected."
            affectedStartDate := r.date
            affectedEndDate := r.date
            metadata := [("outlierValue", .num (energyOf r)),
                         ("expectedRange", .range lowerBound upperBound),
                         ("errorType", .str "STATISTICAL_OUTLIER")] })) :=
  ⟨by simp,
   (sensor_iqr_outlier_pass ⟨5⟩
     [⟨0, some 10⟩, ⟨1, some 11⟩, ⟨2, some 9⟩, ⟨3, some 10⟩, ⟨4, some 12⟩,
      ⟨5, some 10⟩, ⟨6, some 50⟩] (by simp)).1⟩

/-- Replace an absent daily energy by an explicit zero, keeping the date
and any present value unchanged. -/
def zeroFill (r : DailyRecord) : DailyRecord :=
  ⟨r.date, some (energyOf r)⟩

/-- Coerced energy is unchanged by zero-filling. -/
@[simp] theorem energyOf_zeroFill (r : DailyRecord) :
    energyOf (zeroFill r) = energyOf r := rfl

/-- Date is unchanged by zero-filling. -/
@[simp] theorem zeroFill_date (r : DailyRecord) :
    (zeroFill r).date = r.date := rfl

/-- Generic flatMap over a mapped list. -/
theorem flatMap_map_comp {α β γ : Type} (f : α → β) (g : β → List γ)
    (l : List α) : (l.map f).flatMap g = l.flatMap fun a => g (f a) := by
  induction l <;> simp [*]

/-- Mapped coerced energies are unchanged by zero-filling. -/
@[simp] theorem map_comp_energyOf_zeroFill (l : List DailyRecord) :
    List.map (energyOf ∘ zeroFill) l = List.map energyOf l := by
  simp [Function.comp_def]

/-- Mapped dates are unchanged by zero-filling. -/
@[simp] theorem map_comp_date_zeroFill (l : List DailyRecord) :
    List.map (DailyRecord.date ∘ zeroFill) l = List.map DailyRecord.date l := by
  simp [Function.comp_def]

/-- Zero-filling is invisible to the mechanical pair walk. -/
theorem mechPairs_zeroFill (avg : ℚ) :
    ∀ (p : DailyRecord) (l : List DailyRecord),
      mechPairs avg (zeroFill p) (l.map zeroFill) = mechPairs avg p l := by
  intro p l
  induction l generalizing p with
  | nil => rfl
  | cons c rest ih =>
    simp only [List.map_cons, mechPairs, energyOf_zeroFill, zeroFill_date,
      ih c]

/-- Zero-filling is invisible to the mechanical detector. -/
theorem detectMechanical_zeroFill (records : List DailyRecord) :
    detectMechanicalAnomalies (records.map zeroFill) =
      detectMechanicalAnomalies records := by
  rw [detectMechanicalAnomalies, detectMechanicalAnomalies, List.length_map]
  by_cases h : records.length < 2
  · simp [h]
  · cases records with
    | nil => rfl
    | cons r rest =>
      simp only [if_neg h, List.map_cons, List.map_map,
        map_comp_energyOf_zeroFill, energyOf_zeroFill]
      exact mechPairs_zeroFill _ r rest

/-- Zero-filling is invisible to the temperature detector. -/
theorem detectTemperature_zeroFill (solarUnit : Option SolarUnit)
    (records : List DailyRecord) :
    detectTemperatureAnomalies solarUnit (records.map zeroFill) =
      detectTemperatureAnomalies solarUnit records := by
  cases solarUnit with
  | none =>
    rw [detectTemperatureAnomalies, detectTemperatureAnomalies]
    simp
  | some u =>
    rw [detectTemperatureAnomalies, detectTemperatureAnomalies,
      List.length_map]
    by_cases h : records.length < 7
    · simp [h]
    · simp only [if_neg h]
      rw [← List.map_drop]
      simp [List.map_map, Function.comp_def]

/-- Zero-filling is invisible to the shading detector. -/
theorem detectShading_zeroFill (records : List DailyRecord) :
    detectShadingAnomalies (records.map zeroFill) =
      detectShadingAnomalies records := by
  rw [detectShadingAnomalies, detectShadingAnomalies, List.length_map]
  by_cases h : records.length < 5
  · simp [h]
  · simp only [if_neg h, List.map_map, map_comp_energyOf_zeroFill]
    rw [List.filter_map]
    simp [List.map_map, Function.comp_def]

/-- Zero-filling is invisible to the sensor-error detector. -/
theorem detectSensor_zeroFill (solarUnit : Option SolarUnit)
    (records : List DailyRecord) :
    detectSensorErrors solarUnit (records.map zeroFill) =
      detectSensorErrors solarUnit records := by
  cases solarUnit with
  | none =>
    rw [detectSensorErrors, detectSensorErrors]
    simp
  | some u =>
    rw [detectSensorErrors, detectSensorErrors, List.length_map]
    by_cases h : records.length < 3
    · simp [h]
    · simp only [if_neg h, List.map_map, map_comp_energyOf_zeroFill]
      rw [flatMap_map_comp, flatMap_map_comp]
      simp only [energyOf_zeroFill, zeroFill_date]

/-- C10: every detector coerces a missing daily energy to zero: reading
the energy of an absent-valued day gives 0, replacing absent energies by
explicit zeros changes no detector output, and an absent-valued day
triggers the CRITICAL mechanical complete-failure finding. -/
theorem missing_energy_behaves_as_zero :
    (∀ d : Nat, energyOf ⟨d, none⟩ = 0 ∧
       energyOf ⟨d, none⟩ = energyOf ⟨d, some 0⟩) ∧
    (∀ (solarUnit : Option SolarUnit) (records : List DailyRecord),
       detectMechanicalAnomalies (records.map zeroFill) =
         detectMechanicalAnomalies records ∧
       detectTemperatureAnomalies solarUnit (records.map zeroFill) =
         detectTemperatureAnomalies solarUnit records ∧
       detectShadingAnomalies (records.map zeroFill) =
         detectShadingAnomalies records ∧
       detectSensorErrors solarUnit (records.map zeroFill) =
         detectSensorErrors solarUnit records) ∧
    detectMechanicalAnomalies [⟨0, some 10⟩, ⟨1, none⟩] =
      [{ anomalyType := "MECHANICAL"
         severity := .CRITICAL
         description := "Complete production failure detected."
         affectedStartDate := 1
         affectedEndDate := 1
         metadata := [("previousEnergy", .num 10),
                      ("currentEnergy", .num 0),
                      ("dropPercentage", .num 100)] }] := by
  refine ⟨fun d => ⟨rfl, rfl⟩,
    fun solarUnit records =>
      ⟨detectMechanical_zeroFill records,
       detectTemperature_zeroFill solarUnit records,
       detectShading_zeroFill records,
       detectSensor_zeroFill solarUnit records⟩, ?_⟩
  norm_num [detectMechanicalAnomalies, mechPairs, energyOf]

/-- A dedup-key match survives appending further records. -/
theorem findUnresolved_append_isSome (db extra : List Anomaly)
    (u t : String) (d : Nat) (h : (findUnresolved db u t d).isSome) :
    (findUnresolved (db ++ extra) u t d).isSome := by
  induction db with
  | nil => simp [findUnresolved] at h
  | cons a rest ih =>
    rw [List.cons_append, findUnresolved]
    rw [findUnresolved] at h
    by_cases hc : a.solarUnitId = u ∧ a.anomalyType = t ∧
        a.affectedStartDate = d ∧ a.resolved = false
    · rw [if_pos hc]; rfl
    · rw [if_neg hc] at h ⊢
      exact ih h

/-- With no match in the prefix, the dedup lookup continues in the
suffix. -/
theorem findUnresolved_append_none (db extra : List Anomaly)
    (u t : String) (d : Nat) (h : findUnresolved db u t d = none) :
    findUnresolved (db ++ extra) u t d = findUnresolved extra u t d := by
  induction db with
  | nil => rfl
  | cons a rest ih =>
    rw [List.cons_append, findUnresolved]
    rw [findUnresolved] at h
    by_cases hc : a.solarUnitId = u ∧ a.anomalyType = t ∧
        a.affectedStartDate = d ∧ a.resolved = false
    · rw [if_pos hc] at h; exact absurd h (by simp)
    · rw [if_neg hc] at h
      rw [if_neg hc]
      exact ih h

/-- A freshly created anomaly matches its own dedup key. -/
theorem findUnresolved_mkAnomaly_cons (u : String) (f : DetectionResult)
    (rest : List Anomaly) :
    (findUnresolved (mkAnomaly u f :: rest) u f.anomalyType
      f.affectedStartDate).isSome := by
  rw [findUnresolved, if_pos ⟨rfl, rfl, rfl, rfl⟩]
  rfl

/-- Under the no-failure schedule the persistence loop never aborts, only
appends to the collection, and leaves an unresolved dedup-key match for
every finding it processed. -/
theorem persistLoop_noFail (u : String) :
    ∀ (findings : List DetectionResult) (i : Nat) (db : List Anomaly)
      (c s : Nat),
      (persistLoop u noFail noFail i db c s findings).aborted = false ∧
      (∃ ext, (persistLoop u noFail noFail i db c s findings).db = db ++ ext) ∧
      ∀ f ∈ findings,
        (findUnresolved (persistLoop u noFail noFail i db c s findings).db
          u f.anomalyType f.affectedStartDate).isSome := by
  intro findings
  induction findings with
  | nil =>
    intro i db c s
    refine ⟨rfl, ⟨[], by simp [persistLoop]⟩, by simp⟩
  | cons f rest ih =>
    intro i db c s
    rw [persistLoop]
    simp only [noFail, Bool.false_eq_true, if_false]
    cases hfind : findUnresolved db u f.anomalyType f.affectedStartDate with
    | some a =>
      obtain ⟨hab, ⟨ext, hdb⟩, hkeys⟩ := ih (i + 1) db c (s + 1)
      refine ⟨hab, ⟨ext, hdb⟩, ?_⟩
      intro g hg
      rcases List.mem_cons.mp hg with hg | hg
      · subst hg
        rw [hdb]
        exact findUnresolved_append_isSome db ext u g.anomalyType
          g.affectedStartDate (by rw [hfind]; rfl)
      · exact hkeys g hg
    | none =>
      obtain ⟨hab, ⟨ext, hdb⟩, hkeys⟩ :=
        ih (i + 1) (db ++ [mkAnomaly u f]) (c + 1) s
      refine ⟨hab, ⟨[mkAnomaly u f] ++ ext, by rw [hdb, List.append_assoc]⟩, ?_⟩
      intro g hg
      rcases List.mem_cons.mp hg with hg | hg
      · subst hg
        rw [hdb, List.append_assoc,
          findUnresolved_append_none db ([mkAnomaly u g] ++ ext) u
            g.anomalyType g.affectedStartDate hfind]
        exact findUnresolved_append_isSome [mkAnomaly u g] ext u g.anomalyType
          g.affectedStartDate (findUnresolved_mkAnomaly_cons u g [])
      · exact hkeys g hg

/-- When every finding already has an unresolved dedup-key match, the
no-failure persistence loop skips them all: no creation, no change to the
collection. -/
theorem persistLoop_all_present (u : String) :
    ∀ (findings : List DetectionResult) (i : Nat) (db : List Anomaly)
      (c s : Nat),
      (∀ f ∈ findings,
        (findUnresolved db u f.anomalyType f.affectedStartDate).isSome) →
      persistLoop u noFail noFail i db c s findings =
        ⟨db, c, s + findings.length, false⟩ := by
  intro findings
  induction findings with
  | nil => intro i db c s _; simp [persistLoop]
  | cons f rest ih =>
    intro i db c s h
    rw [persistLoop]
    simp only [noFail, Bool.false_eq_true, if_false]
    obtain ⟨a, ha⟩ := Option.isSome_iff_exists.mp (h f (by simp))
    rw [ha]
    rw [ih (i + 1) db c (s + 1) (fun g hg => h g (by simp [hg]))]
    simp only [PersistOutcome.mk.injEq, List.length_cons, and_true, true_and]
    omega

/-- C1: running the orchestrator twice on the same stored daily records
with an unchanged repository leaves, after the first run, an unresolved
anomaly matching the dedup key of every finding; the second run then
creates zero records, skips every finding as a duplicate, and leaves the
collection unchanged. -/
theorem orchestrator_idempotent (solarUnit : Option SolarUnit)
    (solarUnitId : String) (records : List DailyRecord)
    (db : List Anomaly) (hne : records ≠ []) :
    (∀ f ∈ allFindings solarUnit records,
       (findUnresolved
         (detectAllAnomalies noFail noFail solarUnit solarUnitId records
           db).anomalies
         solarUnitId f.anomalyType f.affectedStartDate).isSome) ∧
    (detectAllAnomalies noFail noFail solarUnit solarUnitId records
        (detectAllAnomalies noFail noFail solarUnit solarUnitId records
          db).anomalies).anomalies =
      (detectAllAnomalies noFail noFail solarUnit solarUnitId records
        db).anomalies ∧
    (detectAllAnomalies noFail noFail solarUnit solarUnitId records
        (detectAllAnomalies noFail noFail solarUnit solarUnitId records
          db).anomalies).log =
      [LogEvent.processing records.length solarUnitId,
       LogEvent.complete 0 (allFindings solarUnit records).length
         (allFindings solarUnit records).length] := by
  have hlen : ¬records.length = 0 := by simpa using hne
  obtain ⟨hab, ⟨ext, hdb⟩, hkeys⟩ :=
    persistLoop_noFail solarUnitId (allFindings solarUnit records) 0 db 0 0
  have hr1 : (detectAllAnomalies noFail noFail solarUnit solarUnitId records
      db).anomalies =
      (persistLoop solarUnitId noFail noFail 0 db 0 0
        (allFindings solarUnit records)).db := by
    rw [detectAllAnomalies, if_neg hlen]
    simp only [hab, Bool.false_eq_true, if_false]
  have hsecond := persistLoop_all_present solarUnitId
    (allFindings solarUnit records) 0
    (persistLoop solarUnitId noFail noFail 0 db 0 0
      (allFindings solarUnit records)).db 0 0 hkeys
  refine ⟨fun f hf => by rw [hr1]; exact hkeys f hf, ?_, ?_⟩ <;>
  · conv_lhs => rw [detectAllAnomalies, if_neg hlen]
    rw [hr1, hsecond]
    simp

/-- Witness for C1 at the five-day collapse series with unknown profile
and an empty repository. -/
theorem orchestrator_idempotent_witness :
    (([(⟨0, some 10⟩ : DailyRecord), ⟨1, some 10⟩, ⟨2, some 10⟩,
        ⟨3, some 10⟩, ⟨4, some 0⟩] : List DailyRecord) ≠ []) ∧
    ((∀ f ∈ allFindings none
        [⟨0, some 10⟩, ⟨1, some 10⟩, ⟨2, some 10⟩, ⟨3, some 10⟩, ⟨4, some 0⟩],
       (findUnresolved
         (detectAllAnomalies noFail noFail none "w1"
           [⟨0, some 10⟩, ⟨1, some 10⟩, ⟨2, some 10⟩, ⟨3, some 10⟩,
            ⟨4, some 0⟩] []).anomalies
         "w1" f.anomalyType f.affectedStartDate).isSome) ∧
    (detectAllAnomalies noFail noFail none "w1"
        [⟨0, some 10⟩, ⟨1, some 10⟩, ⟨2, some 10⟩, ⟨3, some 10⟩, ⟨4, some 0⟩]
        (detectAllAnomalies noFail noFail none "w1"
          [⟨0, some 10⟩, ⟨1, some 10⟩, ⟨2, some 10⟩, ⟨3, some 10⟩,
           ⟨4, some 0⟩] []).anomalies).anomalies =
      (detectAllAnomalies noFail noFail none "w1"
        [⟨0, some 10⟩, ⟨1, some 10⟩, ⟨2, some 10⟩, ⟨3, some 10⟩, ⟨4, some 0⟩]
        []).anomalies ∧
    (detectAllAnomalies noFail noFail none "w1"
        [⟨0, some 10⟩, ⟨1, some 10⟩, ⟨2, some 10⟩, ⟨3, some 10⟩, ⟨4, some 0⟩]
        (detectAllAnomalies noFail noFail none "w1"
          [⟨0, some 10⟩, ⟨1, some 10⟩, ⟨2, some 10⟩, ⟨3, some 10⟩,
           ⟨4, some 0⟩] []).anomalies).log =
      [LogEvent.processing 5 "w1",
       LogEvent.complete 0
         (allFindings none
           [⟨0, some 10⟩, ⟨1, some 10⟩, ⟨2, some 10⟩, ⟨3, some 10⟩,
            ⟨4, some 0⟩]).length
         (allFindings none
           [⟨0, some 10⟩, ⟨1, some 10⟩, ⟨2, some 10⟩, ⟨3, some 10⟩,
            ⟨4, some 0⟩]).length]) :=
  ⟨by simp,
   orchestrator_idempotent none "w1"
     [⟨0, some 10⟩, ⟨1, some 10⟩, ⟨2, some 10⟩, ⟨3, some 10⟩, ⟨4, some 0⟩]
     [] (by simp)⟩

/-- C2 counterexample: in the five-day series 10,10,0,10,0 the mechanical
detector finds two collapses; when the create of the first finding
throws, the run aborts with an empty collection and an error log — the
second finding is never attempted, and no totals are reported — while the
failure-free run persists both findings. -/
theorem persistence_failure_isolation_cex :
    (detectAllAnomalies noFail (fun i => decide (i = 0)) none "c1"
        [⟨0, some 10⟩, ⟨1, some 10⟩, ⟨2, some 0⟩, ⟨3, some 10⟩, ⟨4, some 0⟩]
        []).anomalies = [] ∧
    (detectAllAnomalies noFail (fun i => decide (i = 0)) none "c1"
        [⟨0, some 10⟩, ⟨1, some 10⟩, ⟨2, some 0⟩, ⟨3, some 10⟩, ⟨4, some 0⟩]
        []).log =
      [LogEvent.processing 5 "c1", LogEvent.runError "c1"] ∧
    (detectAllAnomalies noFail noFail none "c1"
        [⟨0, some 10⟩, ⟨1, some 10⟩, ⟨2, some 0⟩, ⟨3, some 10⟩, ⟨4, some 0⟩]
        []).anomalies.length = 2 := by
  refine ⟨?_, ?_, ?_⟩ <;>
    norm_num [detectAllAnomalies, allFindings, detectMechanicalAnomalies,
      detectTemperatureAnomalies, detectShadingAnomalies, detectSensorErrors,
      mechPairs, energyOf, sortDesc, insertDesc, persistLoop, findUnresolved,
      mkAnomaly, noFail]

/-- A thrown dedup lookup at index i ends the persistence loop: the
outcome is the no-failure outcome of the first i findings, marked
aborted. -/
theorem persistLoop_abort_at (u : String) (i : Nat) :
    ∀ (findings : List DetectionResult) (k : Nat) (db : List Anomaly)
      (c s : Nat),
      k ≤ i → i < k + findings.length →
      persistLoop u (fun j => decide (j = i)) noFail k db c s findings =
        ⟨(persistLoop u noFail noFail k db c s
            (findings.take (i - k))).db,
         (persistLoop u noFail noFail k db c s
            (findings.take (i - k))).created,
         (persistLoop u noFail noFail k db c s
            (findings.take (i - k))).skipped,
         true⟩ := by
  intro findings
  induction findings with
  | nil =>
    intro k db c s hk hi
    simp at hi
    omega
  | cons f rest ih =>
    intro k db c s hk hi
    cases hfind : findUnresolved db u f.anomalyType f.affectedStartDate with
    | some a =>
      by_cases hki : k = i
      · subst hki
        rw [persistLoop, if_pos (by simp)]
        simp [Nat.sub_self, persistLoop]
      · have hexp : i - k = (i - (k + 1)) + 1 := by omega
        rw [persistLoop, if_neg (by simpa using hki)]
        rw [hexp, List.take_succ_cons]
        conv_rhs => rw [persistLoop]
        simp only [noFail, Bool.false_eq_true, if_false, hfind]
        exact ih (k + 1) db c (s + 1) (by omega)
          (by simp only [List.length_cons] at hi; omega)
    | none =>
      by_cases hki : k = i
      · subst hki
        rw [persistLoop, if_pos (by simp)]
        simp [Nat.sub_self, persistLoop]
      · have hexp : i - k = (i - (k + 1)) + 1 := by omega
        rw [persistLoop, if_neg (by simpa using hki)]
        rw [hexp, List.take_succ_cons]
        conv_rhs => rw [persistLoop]
        simp only [noFail, Bool.false_eq_true, if_false, hfind]
        exact ih (k + 1) (db ++ [mkAnomaly u f]) (c + 1) s (by omega)
          (by simp only [List.length_cons] at hi; omega)

/-- C2 amended: a repository failure while persisting the i-th finding
aborts the rest of the loop — the collection keeps exactly the effects of
the first i findings, the remaining findings are not attempted, and the
run logs an error instead of the created/skipped/detected totals (the
error is swallowed, not propagated). -/
theorem persistence_failure_aborts_rest (solarUnit : Option SolarUnit)
    (solarUnitId : String) (records : List DailyRecord) (db : List Anomaly)
    (i : Nat) (hne : records ≠ [])
    (hi : i < (allFindings solarUnit records).length) :
    (detectAllAnomalies (fun j => decide (j = i)) noFail solarUnit
        solarUnitId records db).anomalies =
      (persistLoop solarUnitId noFail noFail 0 db 0 0
        ((allFindings solarUnit records).take i)).db ∧
    (detectAllAnomalies (fun j => decide (j = i)) noFail solarUnit
        solarUnitId records db).log =
      [LogEvent.processing records.length solarUnitId,
       LogEvent.runError solarUnitId] := by
  have hlen : ¬records.length = 0 := by simpa using hne
  have habort := persistLoop_abort_at solarUnitId i
    (allFindings solarUnit records) 0 db 0 0 (by omega) (by omega)
  rw [detectAllAnomalies, if_neg hlen]
  simp only [habort]
  exact ⟨rfl, rfl⟩

/-- Witness for C2 amended: failure on the first finding of the two-drop
series leaves the repository untouched. -/
theorem persistence_failure_aborts_rest_witness :
    (([(⟨0, some 10⟩ : DailyRecord), ⟨1, some 10⟩, ⟨2, some 0⟩,
        ⟨3, some 10⟩, ⟨4, some 0⟩] : List DailyRecord) ≠ []) ∧
    (0 < (allFindings none
        [⟨0, some 10⟩, ⟨1, some 10⟩, ⟨2, some 0⟩, ⟨3, some 10⟩,
         ⟨4, some 0⟩]).length) ∧
    ((detectAllAnomalies (fun j => decide (j = 0)) noFail none "w2"
        [⟨0, some 10⟩, ⟨1, some 10⟩, ⟨2, some 0⟩, ⟨3, some 10⟩, ⟨4, some 0⟩]
        []).anomalies =
      (persistLoop "w2" noFail noFail 0 [] 0 0
        ((allFindings none
          [⟨0, some 10⟩, ⟨1, some 10⟩, ⟨2, some 0⟩, ⟨3, some 10⟩,
           ⟨4, some 0⟩]).take 0)).db ∧
    (detectAllAnomalies (fun j => decide (j = 0)) noFail none "w2"
        [⟨0, some 10⟩, ⟨1, some 10⟩, ⟨2, some 0⟩, ⟨3, some 10⟩, ⟨4, some 0⟩]
        []).log =
      [LogEvent.processing 5 "w2", LogEvent.runError "w2"]) := by
  refine ⟨by simp, ?_, ?_⟩
  · norm_num [allFindings, detectMechanicalAnomalies,
      detectTemperatureAnomalies, detectShadingAnomalies, detectSensorErrors,
      mechPairs, energyOf, sortDesc, insertDesc]
  · exact persistence_failure_aborts_rest none "w2"
      [⟨0, some 10⟩, ⟨1, some 10⟩, ⟨2, some 0⟩, ⟨3, some 10⟩, ⟨4, some 0⟩]
      [] 0 (by simp)
      (by norm_num [allFindings, detectMechanicalAnomalies,
        detectTemperatureAnomalies, detectShadingAnomalies,
        detectSensorErrors, mechPairs, energyOf, sortDesc, insertDesc])

end SolarAnomaly
